import Mathlib

/-!
A shallow embedding of the Frogger terminal game (src/main.rs) and proofs of
the specified properties of its core: bounded player movement, wraparound
obstacle stepping, collision detection and resolution, obstacle generation,
the game-loop state machine, and its error-handling policy.

Machine integers of the source (`u16` coordinates, `u8` lives, `i16` speed)
are embedded as `Nat`/`Int`; the one place where overflow is reachable — the
`u8` decrement `frog.lives -= 1` — is embedded with its wrapping semantics,
made explicit as `(lives + 255) % 256`.
-/

/-- `const WIDTH: u16 = 20`. -/
def WIDTH : Nat := 20

/-- `const HEIGHT: u16 = 10`. -/
def HEIGHT : Nat := 10

/-- `const MAX_LIVES: u8 = 3`. -/
def MAX_LIVES : Nat := 3

/-- `const NUM_OBSTACLES: usize = 5`. -/
def NUM_OBSTACLES : Nat := 5

/-- `struct Frog` — grid position and remaining lives (`x, y : u16`, `lives : u8`). -/
structure Frog where
  x : Nat
  y : Nat
  lives : Nat
deriving Repr, DecidableEq

/-- `Frog::move_up`: `if self.y > 0 { self.y -= 1 }`. -/
def Frog.move_up (f : Frog) : Frog :=
  if 0 < f.y then { f with y := f.y - 1 } else f

/-- `Frog::move_down`: `if self.y < HEIGHT - 1 { self.y += 1 }`. -/
def Frog.move_down (f : Frog) : Frog :=
  if f.y < HEIGHT - 1 then { f with y := f.y + 1 } else f

/-- `Frog::move_left`: `if self.x > 0 { self.x -= 1 }`. -/
def Frog.move_left (f : Frog) : Frog :=
  if 0 < f.x then { f with x := f.x - 1 } else f

/-- `Frog::move_right`: `if self.x < WIDTH - 1 { self.x += 1 }`. -/
def Frog.move_right (f : Frog) : Frog :=
  if f.x < WIDTH - 1 then { f with x := f.x + 1 } else f

/-- `struct Obstacle` — position, extent and signed horizontal speed
(`x, y, width, height : u16`, `speed : i16`). -/
structure Obstacle where
  x : Nat
  y : Nat
  width : Nat
  height : Nat
  speed : Int
deriving Repr, DecidableEq

/-- `Obstacle::move` (the spec's `step()`):
`self.x = ((self.x as i32) + self.speed as i32).rem_euclid(WIDTH as i32) as u16`.
Rust's `rem_euclid` is Lean's `Int.emod` (`%` on `Int`). -/
def Obstacle.move (o : Obstacle) : Obstacle :=
  { o with x := (((o.x : Int) + o.speed) % (WIDTH : Int)).toNat }

/-- The point-overlap test inlined in `check_collision` (the spec's
`overlaps(point)`): the point lies in `[x, x+width) × [y, y+height)`. -/
def overlaps (o : Obstacle) (px py : Nat) : Bool :=
  decide (o.x ≤ px) && decide (px < o.x + o.width) &&
    decide (o.y ≤ py) && decide (py < o.y + o.height)

/-- `check_collision`: scan the obstacle list, returning `true` on the first
obstacle whose extent contains the frog's position. -/
def check_collision (f : Frog) : List Obstacle → Bool
  | [] => false
  | o :: rest => if overlaps o f.x f.y then true else check_collision f rest

/-- `handle_collision`: on a detected collision, execute `frog.lives -= 1`
(a `u8` decrement, which wraps modulo 256) and reset the position to
`(WIDTH / 2, HEIGHT - 1)`; otherwise leave the frog unchanged. -/
def handle_collision (f : Frog) (obs : List Obstacle) : Frog :=
  if check_collision f obs then
    { x := WIDTH / 2, y := HEIGHT - 1, lives := (f.lives + 255) % 256 }
  else f

/-- The raw randomness consumed for one obstacle: one draw for each of
`x`, `y`, `width`, `speed`. -/
structure RawRand where
  rx : Nat
  ry : Nat
  rw : Nat
  rs : Nat
deriving Repr, DecidableEq

/-- Model of `rand::Rng::gen_range(lo..hi)` on unsigned integers: an external
collaborator whose contract is to return a value in `[lo, hi)`; the raw draw
`r` selects which. -/
def gen_range (lo hi : Nat) (r : Nat) : Nat := lo + r % (hi - lo)

/-- Model of `rand::Rng::gen_range(lo..=hi)` on signed integers: returns a
value in `[lo, hi]`, selected by the raw draw `r`. -/
def gen_range_inclusive (lo hi : Int) (r : Nat) : Int := lo + (r : Int) % (hi - lo + 1)

/-- `generate_obstacles`: build `NUM_OBSTACLES` obstacles, each with
`x = gen_range(0..WIDTH)`, `y = gen_range(1..HEIGHT-1)`,
`width = gen_range(1..4)`, `height = 1`, `speed = gen_range(-2..=2)`,
consuming the raw randomness stream `raw`. -/
def generate_obstacles (raw : Nat → RawRand) : List Obstacle :=
  (List.range NUM_OBSTACLES).map fun i =>
    { x := gen_range 0 WIDTH (raw i).rx
      y := gen_range 1 (HEIGHT - 1) (raw i).ry
      width := gen_range 1 4 (raw i).rw
      height := 1
      speed := gen_range_inclusive (-2) 2 (raw i).rs }

/-- The key codes the loop's `match code` distinguishes: the eight recognized
movement codes, quit, and a stand-in for every other key code. -/
inductive KeyCode where
  | charW | charS | charA | charD | charQ
  | up | down | left | right
  | other
deriving Repr, DecidableEq

/-- A `crossterm` event as the loop sees it: a key event carrying a code, or
any non-key event. -/
inductive InputEvent where
  | key (c : KeyCode)
  | nonKey
deriving Repr, DecidableEq

/-- The movement dispatch of the loop's `match code` for codes other than
`'q'`: `'w'`/Up, `'s'`/Down, `'a'`/Left, `'d'`/Right move the frog; every
other code is a no-op. -/
def apply_move (f : Frog) : KeyCode → Frog
  | .charW => f.move_up
  | .up => f.move_up
  | .charS => f.move_down
  | .down => f.move_down
  | .charA => f.move_left
  | .left => f.move_left
  | .charD => f.move_right
  | .right => f.move_right
  | _ => f

/-- The state-advancing tail of a loop iteration: every obstacle moves one
step, then `handle_collision` runs against the moved obstacles. -/
def advance (f : Frog) (obs : List Obstacle) : Frog × List Obstacle :=
  let moved := obs.map Obstacle.move
  (handle_collision f moved, moved)

/-- One iteration of the game loop as a state transformer, with the outcome
of the blocking `read()` supplied as `r` (`Except.error` models a failed
read). `none` models the `break` out of the loop (the Terminated state):
`'q'` breaks immediately, before the obstacle step and collision check; a
failed read or a non-key event falls through the `if let` with no move. -/
def tick (f : Frog) (obs : List Obstacle) (r : Except String InputEvent) :
    Option (Frog × List Obstacle) :=
  match r with
  | .ok (.key .charQ) => none
  | .ok (.key c) => some (advance (apply_move f c) obs)
  | .ok .nonKey => some (advance f obs)
  | .error _ => some (advance f obs)

/-- Run the loop over a list of per-tick read outcomes, stopping when a tick
breaks. -/
def run (s : Frog × List Obstacle) : List (Except String InputEvent) →
    Option (Frog × List Obstacle)
  | [] => some s
  | r :: rest =>
    match tick s.1 s.2 r with
    | none => none
    | some s' => run s' rest

/-- The outcomes of the fallible terminal commands and the input read issued
during one loop iteration, supplied by the terminal collaborator. -/
structure TickFx where
  drawFrogR : Except String Unit
  drawObstaclesR : List (Except String Unit)
  readR : Except String InputEvent
  clearFrogR : Except String Unit
  clearObstaclesR : List (Except String Unit)
deriving Repr

/-- The call-site handler used by every draw/clear helper:
`Ok(_) => ()`, `Err(e) => eprintln!(ctx, e)` — a failure becomes one line on
the error-diagnostic stream and control returns normally. -/
def report (ctx : String) : Except String Unit → List String
  | .ok _ => []
  | .error e => [ctx ++ e]

/-- One loop iteration with its terminal traffic made explicit: draw frog and
obstacles (failures reported), read input (`Err` falls through the `if let`
as no event), `break` on `'q'` before any clearing, otherwise clear frog and
obstacles (failures reported) and advance the state. Returns the loop outcome
paired with the error-diagnostic lines emitted this tick. -/
def tick_reported (f : Frog) (obs : List Obstacle) (fx : TickFx) :
    Option (Frog × List Obstacle) × List String :=
  let d1 := report "Failed to draw frog: " fx.drawFrogR
  let d2 := (fx.drawObstaclesR.map (report "Failed to draw obstacle: ")).flatten
  match fx.readR with
  | .ok (.key .charQ) => (none, d1 ++ d2)
  | r =>
    let f' := match r with
      | .ok (.key c) => apply_move f c
      | _ => f
    let d3 := report "Failed to clear frog: " fx.clearFrogR
    let d4 := (fx.clearObstaclesR.map (report "Failed to clear obstacle: ")).flatten
    (some (advance f' obs), d1 ++ d2 ++ d3 ++ d4)

/-- `main`'s pre-loop setup: construct the frog at `(WIDTH/2, HEIGHT-1)` with
`MAX_LIVES`, generate the obstacles, then issue the screen-clear/cursor-hide;
on its failure, report and `return` before the loop runs (`none`). -/
def startup (raw : Nat → RawRand) (clearR : Except String Unit) :
    Option (Frog × List Obstacle) × List String :=
  match clearR with
  | .ok _ => (some (⟨WIDTH / 2, HEIGHT - 1, MAX_LIVES⟩, generate_obstacles raw), [])
  | .error e => (none, ["Failed to clear terminal and hide cursor: " ++ e])

/-- The specified behavior of the four directional moves at a position: each
stays inside `[0, WIDTH) × [0, HEIGHT)`, moves by one cell when not at the
corresponding edge, is a no-op at that edge, and touches no other field. -/
def MoveSpec (f : Frog) : Prop :=
  (f.move_up.x = f.x ∧ f.move_up.lives = f.lives ∧
      f.move_up.x < WIDTH ∧ f.move_up.y < HEIGHT ∧
      (0 < f.y → f.move_up.y = f.y - 1) ∧ (f.y = 0 → f.move_up = f)) ∧
  (f.move_down.x = f.x ∧ f.move_down.lives = f.lives ∧
      f.move_down.x < WIDTH ∧ f.move_down.y < HEIGHT ∧
      (f.y < HEIGHT - 1 → f.move_down.y = f.y + 1) ∧
      (f.y = HEIGHT - 1 → f.move_down = f)) ∧
  (f.move_left.y = f.y ∧ f.move_left.lives = f.lives ∧
      f.move_left.x < WIDTH ∧ f.move_left.y < HEIGHT ∧
      (0 < f.x → f.move_left.x = f.x - 1) ∧ (f.x = 0 → f.move_left = f)) ∧
  (f.move_right.y = f.y ∧ f.move_right.lives = f.lives ∧
      f.move_right.x < WIDTH ∧ f.move_right.y < HEIGHT ∧
      (f.x < WIDTH - 1 → f.move_right.x = f.x + 1) ∧
      (f.x = WIDTH - 1 → f.move_right = f))

/-- The specified shape of a generated obstacle: `x ∈ [0, WIDTH)`,
`y ∈ [1, HEIGHT-2]`, `width ∈ [1, 3]`, `height = 1`, `speed ∈ [-2, 2]`. -/
def ObstacleSpec (o : Obstacle) : Prop :=
  o.x < WIDTH ∧ 1 ≤ o.y ∧ o.y ≤ HEIGHT - 2 ∧ 1 ≤ o.width ∧ o.width ≤ 3 ∧
    o.height = 1 ∧ -2 ≤ o.speed ∧ o.speed ≤ 2

/-- An obstacle whose vertical extent avoids both the top row `0` and the
bottom row `HEIGHT - 1`. -/
def RowSafe (o : Obstacle) : Prop :=
  1 ≤ o.y ∧ o.y + o.height ≤ HEIGHT - 1

/-! ## Helper lemmas -/

theorem overlaps_iff (o : Obstacle) (px py : Nat) :
    overlaps o px py = true ↔
      o.x ≤ px ∧ px < o.x + o.width ∧ o.y ≤ py ∧ py < o.y + o.height := by
  simp [overlaps, and_assoc]

theorem check_collision_iff (f : Frog) (obs : List Obstacle) :
    check_collision f obs = true ↔ ∃ o ∈ obs, overlaps o f.x f.y = true := by
  induction obs with
  | nil => simp [check_collision]
  | cons o rest ih =>
    by_cases h : overlaps o f.x f.y = true
    · simp [check_collision, h]
    · simp only [Bool.not_eq_true] at h
      simp [check_collision, h, ih]

theorem move_y_eq (o : Obstacle) : (Obstacle.move o).y = o.y := rfl

theorem move_height_eq (o : Obstacle) : (Obstacle.move o).height = o.height := rfl

theorem move_x_nonneg (o : Obstacle) :
    (0 : Int) ≤ ((o.x : Int) + o.speed) % (WIDTH : Int) :=
  Int.emod_nonneg _ (by decide)

theorem move_x_bound (o : Obstacle) :
    ((o.x : Int) + o.speed) % (WIDTH : Int) < (WIDTH : Int) :=
  Int.emod_lt_of_pos _ (by decide)

theorem move_x_cast (o : Obstacle) :
    ((Obstacle.move o).x : Int) = ((o.x : Int) + o.speed) % (WIDTH : Int) := by
  show ((((o.x : Int) + o.speed) % (WIDTH : Int)).toNat : Int) = _
  exact Int.toNat_of_nonneg (move_x_nonneg o)

theorem move_x_lt (o : Obstacle) : (Obstacle.move o).x < WIDTH := by
  have h1 := move_x_cast o
  have h2 := move_x_bound o
  have : ((Obstacle.move o).x : Int) < (WIDTH : Int) := h1 ▸ h2
  exact_mod_cast this

theorem generate_obstacles_length (raw : Nat → RawRand) :
    (generate_obstacles raw).length = NUM_OBSTACLES := by
  simp [generate_obstacles]

theorem generate_obstacles_mem_spec (raw : Nat → RawRand) (o : Obstacle)
    (h : o ∈ generate_obstacles raw) : ObstacleSpec o := by
  simp only [generate_obstacles, List.mem_map, List.mem_range] at h
  obtain ⟨i, -, rfl⟩ := h
  have hx : (raw i).rx % 20 < 20 := by omega
  have hy : (raw i).ry % 8 < 8 := by omega
  have hw : (raw i).rw % 3 < 3 := by omega
  have hs0 : (0 : Int) ≤ ((raw i).rs : Int) % 5 :=
    Int.emod_nonneg _ (by decide)
  have hs1 : ((raw i).rs : Int) % 5 < 5 :=
    Int.emod_lt_of_pos _ (by decide)
  refine ⟨?_, ?_, ?_, ?_, ?_, rfl, ?_, ?_⟩ <;>
    simp [gen_range, gen_range_inclusive, WIDTH, HEIGHT] <;> omega

/-! ## Claim theorems -/

/-- C2: for every player position inside `[0, WIDTH) × [0, HEIGHT)`, each of
the four moves stays in bounds, moves one cell in its direction when not at
the corresponding edge, is a no-op at that edge (in particular a left move at
`x = 0` stays at `x = 0`), and never wraps or errors. -/
theorem frog_moves_inbounds_c2 (f : Frog) (hx : f.x < WIDTH) (hy : f.y < HEIGHT) :
    MoveSpec f := by
  obtain ⟨x, y, l⟩ := f
  simp only [MoveSpec, Frog.move_up, Frog.move_down, Frog.move_left,
    Frog.move_right, WIDTH, HEIGHT] at *
  split_ifs <;> simp_all <;> omega

theorem frog_moves_inbounds_c2_witness :
    (Frog.mk 0 0 3).x < WIDTH ∧ (Frog.mk 0 0 3).y < HEIGHT ∧
      MoveSpec (Frog.mk 0 0 3) :=
  ⟨by decide, by decide, frog_moves_inbounds_c2 (Frog.mk 0 0 3) (by decide) (by decide)⟩

/-- C3: for every obstacle, `Obstacle.move` sets `x` to the true
(non-negative) modulo `(x + speed) mod WIDTH`, so the result lies in
`[0, WIDTH)`, and changes nothing else; concretely `x = 0`, `speed = -2`
gives `x = 18`. -/
theorem obstacle_move_wraps_c3 (o : Obstacle) :
    ((Obstacle.move o).x : Int) = ((o.x : Int) + o.speed) % (WIDTH : Int) ∧
    (Obstacle.move o).x < WIDTH ∧
    (Obstacle.move o).y = o.y ∧ (Obstacle.move o).width = o.width ∧
    (Obstacle.move o).height = o.height ∧ (Obstacle.move o).speed = o.speed ∧
    Obstacle.move ⟨0, 5, 2, 1, -2⟩ = ⟨18, 5, 2, 1, -2⟩ :=
  ⟨move_x_cast o, move_x_lt o, rfl, rfl, rfl, rfl, by decide⟩

/-- C5: the point-overlap test is true iff the point lies in
`[x, x+width) × [y, y+height)`, and the whole-collection check is true iff
at least one obstacle's test is. -/
theorem collision_test_c5 :
    (∀ (o : Obstacle) (px py : Nat),
        overlaps o px py = true ↔
          o.x ≤ px ∧ px < o.x + o.width ∧ o.y ≤ py ∧ py < o.y + o.height) ∧
    (∀ (f : Frog) (obs : List Obstacle),
        check_collision f obs = true ↔ ∃ o ∈ obs, overlaps o f.x f.y = true) :=
  ⟨overlaps_iff, check_collision_iff⟩

/-- C1: when the player's position overlaps some obstacle, `handle_collision`
performs exactly one lives decrement and resets the position to exactly
`(WIDTH/2, HEIGHT-1) = (10, 9)`; the result is the same for any two obstacle
lists that both report a collision (so the number of simultaneously
overlapping obstacles is irrelevant); with no overlap, the frog is unchanged. -/
theorem handle_collision_once_c1 (f : Frog) (obs obs2 : List Obstacle) :
    (check_collision f obs = true → 1 ≤ f.lives → f.lives ≤ 255 →
        handle_collision f obs = Frog.mk (WIDTH / 2) (HEIGHT - 1) (f.lives - 1)) ∧
    (check_collision f obs = false → handle_collision f obs = f) ∧
    (check_collision f obs = true → check_collision f obs2 = true →
        handle_collision f obs = handle_collision f obs2) ∧
    WIDTH / 2 = 10 ∧ HEIGHT - 1 = 9 := by
  refine ⟨?_, ?_, ?_, by decide, by decide⟩
  · intro hc h1 h255
    simp only [handle_collision, hc, if_true, Frog.mk.injEq]
    refine ⟨trivial, trivial, ?_⟩
    omega
  · intro hc
    simp [handle_collision, hc]
  · intro h1 h2
    simp [handle_collision, h1, h2]

theorem handle_collision_once_c1_witness :
    (check_collision ⟨5, 5, 3⟩ [⟨5, 5, 1, 1, 0⟩] = true ∧ 1 ≤ 3 ∧ 3 ≤ 255 ∧
      handle_collision ⟨5, 5, 3⟩ [⟨5, 5, 1, 1, 0⟩] =
        Frog.mk (WIDTH / 2) (HEIGHT - 1) (3 - 1)) ∧
    (check_collision ⟨0, 0, 3⟩ [] = false ∧
      handle_collision ⟨0, 0, 3⟩ [] = ⟨0, 0, 3⟩) ∧
    (check_collision ⟨5, 5, 3⟩ [⟨4, 5, 2, 1, 1⟩, ⟨5, 5, 1, 1, 0⟩] = true ∧
      handle_collision ⟨5, 5, 3⟩ [⟨5, 5, 1, 1, 0⟩] =
        handle_collision ⟨5, 5, 3⟩ [⟨4, 5, 2, 1, 1⟩, ⟨5, 5, 1, 1, 0⟩]) :=
  ⟨⟨by decide, by decide, by decide,
      (handle_collision_once_c1 ⟨5, 5, 3⟩ [⟨5, 5, 1, 1, 0⟩] []).1
        (by decide) (by decide) (by decide)⟩,
    ⟨by decide, (handle_collision_once_c1 ⟨0, 0, 3⟩ [] []).2.1 (by decide)⟩,
    ⟨by decide,
      (handle_collision_once_c1 ⟨5, 5, 3⟩ [⟨5, 5, 1, 1, 0⟩]
          [⟨4, 5, 2, 1, 1⟩, ⟨5, 5, 1, 1, 0⟩]).2.2.1 (by decide) (by decide)⟩⟩

/-- C4 (failing-input evaluation): from the initial state — frog at
`(WIDTH/2, HEIGHT-1)` with `MAX_LIVES = 3` — and a stationary obstacle
covering `(10, 9)`, four consecutive no-input ticks collide four times: the
`u8` decrement `lives -= 1` takes lives 3 → 2 → 1 → 0 → 255, so on the fourth
collision the lives counter increases from 0 to 255 (the wrapped value;
a debug build panics on this subtraction instead). -/
theorem lives_underflow_c4 :
    run (⟨WIDTH / 2, HEIGHT - 1, MAX_LIVES⟩, [⟨10, 9, 1, 1, 0⟩])
        [.ok .nonKey, .ok .nonKey, .ok .nonKey, .ok .nonKey] =
      some (⟨10, 9, 255⟩, [⟨10, 9, 1, 1, 0⟩]) ∧
    MAX_LIVES < 255 := by
  constructor
  · decide
  · decide

/-- C6: a tick terminates the loop (`none`) iff its input read returned a
`'q'` key event — unconditionally in the game state, and no other read
outcome ends the loop. -/
theorem quit_terminates_c6 (f : Frog) (obs : List Obstacle)
    (r : Except String InputEvent) :
    tick f obs r = none ↔ r = .ok (.key .charQ) := by
  cases r with
  | error e => simp [tick]
  | ok ev =>
    cases ev with
    | nonKey => simp [tick]
    | key c => cases c <;> simp [tick]

/-- C7: render/erase failures are non-fatal — the tick's loop outcome and next
state are exactly those of the pure tick, whatever the terminal command
outcomes, and each failing command is reported on the error-diagnostic
stream; an input-read failure is treated as no event that tick; the startup
screen-clear/cursor-hide is the sole fatal failure, aborting with `none`
before any tick, while its success enters the loop with the fresh state. -/
theorem error_policy_c7 (f : Frog) (obs : List Obstacle) (fx : TickFx)
    (raw : Nat → RawRand) (e1 e2 e3 e4 : String) :
    ((tick_reported f obs fx).1 = tick f obs fx.readR) ∧
    (fx.readR = .error e3 → (tick_reported f obs fx).1 = some (advance f obs)) ∧
    (fx.drawFrogR = .error e1 →
      ("Failed to draw frog: " ++ e1) ∈ (tick_reported f obs fx).2) ∧
    (fx.clearFrogR = .error e2 → fx.readR ≠ .ok (.key .charQ) →
      ("Failed to clear frog: " ++ e2) ∈ (tick_reported f obs fx).2) ∧
    (startup raw (.error e4)).1 = none ∧
    (startup raw (.error e4)).2 = ["Failed to clear terminal and hide cursor: " ++ e4] ∧
    (startup raw (.ok ())).1 =
      some (⟨WIDTH / 2, HEIGHT - 1, MAX_LIVES⟩, generate_obstacles raw) := by
  obtain ⟨d, dos, r, c, cos⟩ := fx
  refine ⟨?_, ?_, ?_, ?_, rfl, rfl, rfl⟩
  · match r with
    | .error e => simp [tick_reported, tick]
    | .ok .nonKey => simp [tick_reported, tick]
    | .ok (.key kc) => cases kc <;> simp [tick_reported, tick]
  · rintro rfl
    simp [tick_reported]
  · rintro rfl
    match r with
    | .error e => simp [tick_reported, report]
    | .ok .nonKey => simp [tick_reported, report]
    | .ok (.key kc) => cases kc <;> simp [tick_reported, report]
  · rintro rfl hr
    match r with
    | .error e => simp [tick_reported, report]
    | .ok .nonKey => simp [tick_reported, report]
    | .ok (.key kc) =>
      cases kc <;> first
        | exact absurd rfl hr
        | simp [tick_reported, report]

theorem error_policy_c7_witness :
    ((tick_reported ⟨10, 9, 3⟩ []
        ⟨.error "d", [], .error "r", .error "c", []⟩).1 =
      tick ⟨10, 9, 3⟩ [] (.error "r")) ∧
    ((tick_reported ⟨10, 9, 3⟩ []
        ⟨.error "d", [], .error "r", .error "c", []⟩).1 =
      some (advance ⟨10, 9, 3⟩ [])) ∧
    (("Failed to draw frog: " ++ "d") ∈
      (tick_reported ⟨10, 9, 3⟩ [] ⟨.error "d", [], .error "r", .error "c", []⟩).2) ∧
    (("Failed to clear frog: " ++ "c") ∈
      (tick_reported ⟨10, 9, 3⟩ [] ⟨.error "d", [], .error "r", .error "c", []⟩).2) ∧
    (startup (fun _ => ⟨0, 0, 0, 0⟩) (.error "s")).1 = none ∧
    (startup (fun _ => ⟨0, 0, 0, 0⟩) (.error "s")).2 =
      ["Failed to clear terminal and hide cursor: " ++ "s"] ∧
    (startup (fun _ => ⟨0, 0, 0, 0⟩) (.ok ())).1 =
      some (⟨WIDTH / 2, HEIGHT - 1, MAX_LIVES⟩,
        generate_obstacles (fun _ => ⟨0, 0, 0, 0⟩)) := by
  have h := error_policy_c7 ⟨10, 9, 3⟩ []
    ⟨.error "d", [], .error "r", .error "c", []⟩ (fun _ => ⟨0, 0, 0, 0⟩)
    "d" "c" "r" "s"
  exact ⟨h.1, h.2.1 rfl, h.2.2.1 rfl,
    h.2.2.2.1 rfl (by simp), h.2.2.2.2.1, h.2.2.2.2.2.1, h.2.2.2.2.2.2⟩

/-- C8: obstacle generation yields exactly `NUM_OBSTACLES = 5` obstacles, and
every generated obstacle has `x ∈ [0, WIDTH)`, `y` in the interior rows
`[1, HEIGHT-2]`, `width ∈ [1, 3]`, `height = 1`, and `speed ∈ [-2, 2]`. -/
theorem generate_obstacles_c8 (raw : Nat → RawRand) :
    (generate_obstacles raw).length = NUM_OBSTACLES ∧
    ∀ o ∈ generate_obstacles raw, ObstacleSpec o :=
  ⟨generate_obstacles_length raw, generate_obstacles_mem_spec raw⟩

theorem generate_obstacles_c8_witness :
    (generate_obstacles (fun _ => ⟨0, 0, 0, 0⟩)).length = NUM_OBSTACLES ∧
    Obstacle.mk 0 1 1 1 (-2) ∈ generate_obstacles (fun _ => ⟨0, 0, 0, 0⟩) ∧
    ObstacleSpec (Obstacle.mk 0 1 1 1 (-2)) :=
  ⟨(generate_obstacles_c8 (fun _ => ⟨0, 0, 0, 0⟩)).1, by decide,
    (generate_obstacles_c8 (fun _ => ⟨0, 0, 0, 0⟩)).2
      (Obstacle.mk 0 1 1 1 (-2)) (by decide)⟩

/-- C9: every tick whose input is not a `'q'` key event produces a successor
state — the per-tick update, including the collision-time lives decrement, is
total for every state, lives = 0 included, and the loop proceeds. -/
theorem loop_total_c9 (f : Frog) (obs : List Obstacle)
    (r : Except String InputEvent) (h : r ≠ .ok (.key .charQ)) :
    ∃ s, tick f obs r = some s := by
  match r with
  | .error e => exact ⟨_, rfl⟩
  | .ok .nonKey => exact ⟨_, rfl⟩
  | .ok (.key kc) =>
    cases kc <;> first
      | exact absurd rfl h
      | exact ⟨_, rfl⟩

theorem loop_total_c9_witness :
    ((Except.ok InputEvent.nonKey : Except String InputEvent) ≠
      .ok (.key .charQ)) ∧
    ∃ s, tick ⟨10, 9, 0⟩ [⟨10, 9, 1, 1, 0⟩] (.ok .nonKey) = some s :=
  ⟨by simp, loop_total_c9 ⟨10, 9, 0⟩ [⟨10, 9, 1, 1, 0⟩] (.ok .nonKey) (by simp)⟩

theorem obstacle_spec_rowsafe (o : Obstacle) (h : ObstacleSpec o) : RowSafe o := by
  obtain ⟨-, h1, h2, -, -, hh, -, -⟩ := h
  refine ⟨h1, ?_⟩
  simp only [HEIGHT] at *
  omega

theorem rowsafe_move (o : Obstacle) (h : RowSafe o) : RowSafe (Obstacle.move o) := by
  unfold RowSafe at *
  rw [move_y_eq, move_height_eq]
  exact h

theorem rowsafe_iterate (raw : Nat → RawRand) (n : Nat) :
    ∀ o ∈ (List.map Obstacle.move)^[n] (generate_obstacles raw), RowSafe o := by
  induction n with
  | zero =>
    intro o ho
    exact obstacle_spec_rowsafe o (generate_obstacles_mem_spec raw o ho)
  | succ n ih =>
    rw [Function.iterate_succ_apply']
    intro o ho
    rw [List.mem_map] at ho
    obtain ⟨o', ho', rfl⟩ := ho
    exact rowsafe_move o' (ih o' ho')

theorem no_collision_on_edge_rows (f : Frog) (obs : List Obstacle)
    (hrow : f.y = 0 ∨ f.y = HEIGHT - 1) (hsafe : ∀ o ∈ obs, RowSafe o) :
    check_collision f obs = false := by
  by_contra h
  rw [Bool.not_eq_false, check_collision_iff] at h
  obtain ⟨o, ho, hov⟩ := h
  rw [overlaps_iff] at hov
  have hs := hsafe o ho
  unfold RowSafe at hs
  simp only [HEIGHT] at *
  omega

/-- C10: since every generated obstacle occupies one interior row, a player
on the top row or the bottom row never collides, however many obstacle steps
have elapsed; in particular the respawn point `(WIDTH/2, HEIGHT-1)` is
collision-free, so the collision reset itself never triggers a further
collision while the player stays on the bottom row. -/
theorem respawn_row_safe_c10 (raw : Nat → RawRand) (n : Nat) (f : Frog)
    (l : Nat) (h : f.y = 0 ∨ f.y = HEIGHT - 1) :
    check_collision f ((List.map Obstacle.move)^[n] (generate_obstacles raw)) = false ∧
    handle_collision (Frog.mk (WIDTH / 2) (HEIGHT - 1) l)
        ((List.map Obstacle.move)^[n] (generate_obstacles raw)) =
      Frog.mk (WIDTH / 2) (HEIGHT - 1) l := by
  have hsafe := rowsafe_iterate raw n
  refine ⟨no_collision_on_edge_rows f _ h hsafe, ?_⟩
  have hc := no_collision_on_edge_rows (Frog.mk (WIDTH / 2) (HEIGHT - 1) l) _
    (Or.inr rfl) hsafe
  simp [handle_collision, hc]

theorem respawn_row_safe_c10_witness :
    ((Frog.mk 0 0 3).y = 0 ∨ (Frog.mk 0 0 3).y = HEIGHT - 1) ∧
    check_collision (Frog.mk 0 0 3)
        ((List.map Obstacle.move)^[1] (generate_obstacles fun _ => ⟨0, 0, 0, 0⟩)) = false ∧
    handle_collision (Frog.mk (WIDTH / 2) (HEIGHT - 1) 3)
        ((List.map Obstacle.move)^[1] (generate_obstacles fun _ => ⟨0, 0, 0, 0⟩)) =
      Frog.mk (WIDTH / 2) (HEIGHT - 1) 3 :=
  ⟨Or.inl rfl,
    (respawn_row_safe_c10 (fun _ => ⟨0, 0, 0, 0⟩) 1 (Frog.mk 0 0 3) 3 (Or.inl rfl)).1,
    (respawn_row_safe_c10 (fun _ => ⟨0, 0, 0, 0⟩) 1 (Frog.mk 0 0 3) 3 (Or.inl rfl)).2⟩
